import Mathlib

/-!
Shallow embedding of the mix-design core of `src/server.js` (StrengthCheckerapp).

JavaScript numbers are modelled as `JSNum`: an exact rational for the finite
case, plus the two infinities and NaN, with IEEE-754 sign/NaN propagation rules
for the arithmetic the code performs.  `Math.round` follows the ECMAScript
definition (nearest integer, ties toward +infinity).  Property access on the
`EXPOSURES` object literal follows JS semantics including the prototype chain:
a key such as `"toString"` finds the inherited, truthy
`Object.prototype.toString`, so `EXPOSURES[key] || EXPOSURES.mild` does *not*
fall back to mild for such keys, and the limit properties read off the
inherited member are `undefined`.  The `round` helper returns `Option JSNum`
because it maps NaN (and null/undefined) to `null`.

Finite arithmetic comes in two layers.  The primary layer (`jsMul`, `jsAdd`,
`computeMixDesign`) keeps finite values exact.  A second layer (`jsMulOv`,
`jsAddOv`, `computeMixDesignOv`) additionally models binary64 overflow: any
finite operation whose exact result has magnitude at least `2^1024` — which
binary64 cannot represent and rounds to ±infinity — overflows to ±infinity.
(Binary64 rounding of in-range results is still idealised as exact.)  The two
layers agree on inputs whose intermediates stay in range.
-/

namespace StrengthChecker

/-- A JavaScript number: finite (exact rational), +Infinity, -Infinity, NaN. -/
inductive JSNum where
  | fin : ℚ → JSNum
  | posInf : JSNum
  | negInf : JSNum
  | nan : JSNum
deriving DecidableEq, Repr

/-- IEEE multiplication on `JSNum` (0 · ∞ = NaN, sign rules for infinities). -/
def jsMul : JSNum → JSNum → JSNum
  | .nan, _ => .nan
  | _, .nan => .nan
  | .fin a, .fin b => .fin (a * b)
  | .fin a, .posInf => if 0 < a then .posInf else if a < 0 then .negInf else .nan
  | .fin a, .negInf => if 0 < a then .negInf else if a < 0 then .posInf else .nan
  | .posInf, .fin b => if 0 < b then .posInf else if b < 0 then .negInf else .nan
  | .negInf, .fin b => if 0 < b then .negInf else if b < 0 then .posInf else .nan
  | .posInf, .posInf => .posInf
  | .posInf, .negInf => .negInf
  | .negInf, .posInf => .negInf
  | .negInf, .negInf => .posInf

/-- IEEE addition on `JSNum` (∞ + (−∞) = NaN). -/
def jsAdd : JSNum → JSNum → JSNum
  | .nan, _ => .nan
  | _, .nan => .nan
  | .fin a, .fin b => .fin (a + b)
  | .fin _, .posInf => .posInf
  | .fin _, .negInf => .negInf
  | .posInf, .fin _ => .posInf
  | .negInf, .fin _ => .negInf
  | .posInf, .posInf => .posInf
  | .negInf, .negInf => .negInf
  | .posInf, .negInf => .nan
  | .negInf, .posInf => .nan

/-- IEEE division on `JSNum`; the code only divides by positive powers of ten.
Division by (positive) zero follows JS: `a / 0` is ±∞, `0 / 0` is NaN. -/
def jsDiv : JSNum → JSNum → JSNum
  | .nan, _ => .nan
  | _, .nan => .nan
  | .fin a, .fin b =>
      if b = 0 then (if a = 0 then .nan else if 0 < a then .posInf else .negInf)
      else .fin (a / b)
  | .fin _, .posInf => .fin 0
  | .fin _, .negInf => .fin 0
  | .posInf, .fin b => if 0 ≤ b then .posInf else .negInf
  | .negInf, .fin b => if 0 ≤ b then .negInf else .posInf
  | .posInf, .posInf => .nan
  | .posInf, .negInf => .nan
  | .negInf, .posInf => .nan
  | .negInf, .negInf => .nan

/-- JS `<=` comparison: any comparison with NaN is false. -/
def jsLe : JSNum → JSNum → Bool
  | .nan, _ => false
  | _, .nan => false
  | .fin a, .fin b => decide (a ≤ b)
  | .fin _, .posInf => true
  | .fin _, .negInf => false
  | .posInf, .fin _ => false
  | .negInf, .fin _ => true
  | .posInf, .posInf => true
  | .negInf, .negInf => true
  | .posInf, .negInf => false
  | .negInf, .posInf => true

/-- JS `>=` comparison, `a >= b` (false whenever either side is NaN). -/
def jsGe (a b : JSNum) : Bool := jsLe b a

/-- JS truthiness of a number: 0, -0 and NaN are falsy, everything else truthy. -/
def jsTruthy : JSNum → Bool
  | .fin a => decide (a ≠ 0)
  | .nan => false
  | _ => true

/-- `Number.isNaN`. -/
def jsIsNaN : JSNum → Bool
  | .nan => true
  | _ => false

/-- ECMAScript `Math.round`: nearest integer, ties rounded toward +∞
(`⌊x + 1/2⌋` on finite values); infinities are returned unchanged. -/
def mathRound : JSNum → JSNum
  | .fin a => .fin ((⌊a + 1/2⌋ : ℤ) : ℚ)
  | .posInf => .posInf
  | .negInf => .negInf
  | .nan => .nan

/-- An exposure-class record of the `EXPOSURES` table (src/server.js lines 8-44). -/
structure Exposure where
  key : String
  label : String
  maxWc : ℚ
  minCement : ℚ
  minGradeFck : ℚ
deriving DecidableEq, Repr

def mildExp : Exposure :=
  { key := "mild", label := "Mild (RCC)", maxWc := 0.55, minCement := 300, minGradeFck := 20 }

def moderateExp : Exposure :=
  { key := "moderate", label := "Moderate (RCC)", maxWc := 0.5, minCement := 300, minGradeFck := 25 }

def severeExp : Exposure :=
  { key := "severe", label := "Severe (RCC)", maxWc := 0.45, minCement := 320, minGradeFck := 30 }

def verySevereExp : Exposure :=
  { key := "verySevere", label := "Very Severe (RCC)", maxWc := 0.45, minCement := 340, minGradeFck := 35 }

def extremeExp : Exposure :=
  { key := "extreme", label := "Extreme (RCC)", maxWc := 0.4, minCement := 360, minGradeFck := 40 }

/-- The property names every plain object literal inherits from
`Object.prototype` in ECMAScript: eleven methods plus the `__proto__`
accessor.  Each is defined and truthy (a function, or `Object.prototype`
itself for `__proto__`). -/
def objectProtoKeys : List String :=
  ["constructor", "hasOwnProperty", "isPrototypeOf", "propertyIsEnumerable",
   "toLocaleString", "toString", "valueOf", "__proto__", "__defineGetter__",
   "__defineSetter__", "__lookupGetter__", "__lookupSetter__"]

/-- The value `limits` can take in `computeMixDesign`: one of the five
exposure records, or a truthy member inherited from `Object.prototype`
(whose limit properties are all `undefined`). -/
inductive LimitsVal where
  | cls : Exposure → LimitsVal
  | protoMember : String → LimitsVal
deriving DecidableEq, Repr

/-- Property access `EXPOSURES[k]` for a string key, `none` modelling
`undefined`: own properties first, then the `Object.prototype` chain. -/
def EXPOSURES_get (k : String) : Option LimitsVal :=
  if k = "mild" then some (.cls mildExp)
  else if k = "moderate" then some (.cls moderateExp)
  else if k = "severe" then some (.cls severeExp)
  else if k = "verySevere" then some (.cls verySevereExp)
  else if k = "extreme" then some (.cls extremeExp)
  else if k ∈ objectProtoKeys then some (.protoMember k)
  else none

/-- `EXPOSURES[exposureKey] || EXPOSURES.mild` (src/server.js line 60): an
absent `exposureKey` (`undefined` coerces to the missing property name
`"undefined"`) or a lookup miss falls back to mild; an inherited
`Object.prototype` member is truthy and is *not* replaced by mild. -/
def resolveExposure : Option String → LimitsVal
  | none => .cls mildExp
  | some s => (EXPOSURES_get s).getD (.cls mildExp)

/-- `limits.maxWc`: `undefined` (`none`) when `limits` is an inherited
prototype member rather than an exposure record. -/
def LimitsVal.maxWcProp : LimitsVal → Option ℚ
  | .cls e => some e.maxWc
  | .protoMember _ => none

/-- `limits.minCement` (`undefined` on an inherited prototype member). -/
def LimitsVal.minCementProp : LimitsVal → Option ℚ
  | .cls e => some e.minCement
  | .protoMember _ => none

/-- `limits.minGradeFck` (`undefined` on an inherited prototype member). -/
def LimitsVal.minGradeFckProp : LimitsVal → Option ℚ
  | .cls e => some e.minGradeFck
  | .protoMember _ => none

/-- JS `a <= b` where `b` may be `undefined` (which coerces to NaN, making the
comparison false). -/
def jsLeProp (a : JSNum) : Option ℚ → Bool
  | none => false
  | some v => jsLe a (.fin v)

/-- JS `a >= b` where `b` may be `undefined`. -/
def jsGeProp (a : JSNum) : Option ℚ → Bool
  | none => false
  | some v => jsGe a (.fin v)

/-- The `round(value, decimals)` helper (src/server.js lines 46-50): null for
NaN input (the null/undefined branches cannot receive a `JSNum`), otherwise
`Math.round(value * 10^decimals) / 10^decimals`. -/
def round (value : JSNum) (decimals : ℕ) : Option JSNum :=
  if jsIsNaN value then none
  else
    let factor : ℚ := 10 ^ decimals
    some (jsDiv (mathRound (jsMul value (.fin factor))) (.fin factor))

/-- `fckMean = -0.0035 * x * x + 1.3074 * x + 1.6883` (line 62), with JS
left-to-right association. -/
def fckMeanRaw (x : JSNum) : JSNum :=
  jsAdd (jsAdd (jsMul (jsMul (.fin (-0.0035)) x) x) (jsMul (.fin 1.3074) x)) (.fin 1.6883)

/-- `w_c = 9e-06 * x * x - 0.0044 * x + 0.5617` (line 63). -/
def w_cRaw (x : JSNum) : JSNum :=
  jsAdd (jsAdd (jsMul (jsMul (.fin 0.000009) x) x) (jsMul (.fin (-0.0044)) x)) (.fin 0.5617)

/-- `water = -0.0107 * x * x - 0.0941 * x + 195.56` (line 64). -/
def waterRaw (x : JSNum) : JSNum :=
  jsAdd (jsAdd (jsMul (jsMul (.fin (-0.0107)) x) x) (jsMul (.fin (-0.0941)) x)) (.fin 195.56)

/-- `cement = -0.0308 * x * x + 4.7223 * x + 298.78` (line 65). -/
def cementRaw (x : JSNum) : JSNum :=
  jsAdd (jsAdd (jsMul (jsMul (.fin (-0.0308)) x) x) (jsMul (.fin 4.7223) x)) (.fin 298.78)

/-- `fineAgg = -0.1156 * x * x + 10.473 * x + 484.42` (line 66). -/
def fineAggRaw (x : JSNum) : JSNum :=
  jsAdd (jsAdd (jsMul (jsMul (.fin (-0.1156)) x) x) (jsMul (.fin 10.473) x)) (.fin 484.42)

/-- `coarseAgg = 0.0335 * x * x - 5.2723 * x + 1234.4` (line 67). -/
def coarseAggRaw (x : JSNum) : JSNum :=
  jsAdd (jsAdd (jsMul (jsMul (.fin 0.0335) x) x) (jsMul (.fin (-5.2723)) x)) (.fin 1234.4)

/-- The `checks` sub-object of a result (src/server.js lines 80-85); `limits`
is whatever `EXPOSURES[exposureKey] || EXPOSURES.mild` produced. -/
structure Checks where
  isWcOk : Bool
  isCementOk : Bool
  isGradeOk : Bool
  limits : LimitsVal
deriving DecidableEq, Repr

/-- The result object of `computeMixDesign` (src/server.js lines 73-86); each
numeric field is `Option JSNum` because `round` can return null. -/
structure MixDesignResult where
  fckMean : Option JSNum
  w_c : Option JSNum
  water : Option JSNum
  cement : Option JSNum
  fineAgg : Option JSNum
  coarseAgg : Option JSNum
  checks : Checks
deriving DecidableEq, Repr

/-- `computeMixDesign(fck, exposureKey)` (src/server.js lines 56-87).  The
`fck` argument is taken after the `Number(fck)` coercion of line 57 (so a
missing or non-numeric `fck` arrives as NaN, an empty string as 0); the
guard is `!x || Number.isNaN(x) || x <= 0`.  The compliance comparisons read
the limit properties off `limits`, which are `undefined` when `limits` is an
inherited prototype member. -/
def computeMixDesign (fck : JSNum) (exposureKey : Option String) : Option MixDesignResult :=
  let x := fck
  if !jsTruthy x || jsIsNaN x || jsLe x (.fin 0) then none
  else
    let limits := resolveExposure exposureKey
    let fckMean := fckMeanRaw x
    let w_c := w_cRaw x
    let water := waterRaw x
    let cement := cementRaw x
    let fineAgg := fineAggRaw x
    let coarseAgg := coarseAggRaw x
    let isWcOk := jsLeProp w_c limits.maxWcProp
    let isCementOk := jsGeProp cement limits.minCementProp
    let isGradeOk := jsGeProp x limits.minGradeFckProp
    some
      { fckMean := round fckMean 2
        w_c := round w_c 3
        water := round water 2
        cement := round cement 2
        fineAgg := round fineAgg 2
        coarseAgg := round coarseAgg 2
        checks :=
          { isWcOk := isWcOk
            isCementOk := isCementOk
            isGradeOk := isGradeOk
            limits := limits } }

/-- Pure rational value of the fckMean regression. -/
def fckMeanQ (x : ℚ) : ℚ := -0.0035 * x * x + 1.3074 * x + 1.6883

/-- Pure rational value of the w_c regression. -/
def w_cQ (x : ℚ) : ℚ := 0.000009 * x * x - 0.0044 * x + 0.5617

/-- Pure rational value of the water regression. -/
def waterQ (x : ℚ) : ℚ := -0.0107 * x * x - 0.0941 * x + 195.56

/-- Pure rational value of the cement regression. -/
def cementQ (x : ℚ) : ℚ := -0.0308 * x * x + 4.7223 * x + 298.78

/-- Pure rational value of the fineAgg regression. -/
def fineAggQ (x : ℚ) : ℚ := -0.1156 * x * x + 10.473 * x + 484.42

/-- Pure rational value of the coarseAgg regression. -/
def coarseAggQ (x : ℚ) : ℚ := 0.0335 * x * x - 5.2723 * x + 1234.4

/-- Rational-level description of `round` on a finite value: scale by `10^d`,
round half toward +∞, scale back. -/
def roundQ (a : ℚ) (d : ℕ) : ℚ := ((⌊a * 10 ^ d + 1/2⌋ : ℤ) : ℚ) / 10 ^ d

/-- A numeric result field that is present and finite (not null, not ±∞). -/
def isFiniteNum : Option JSNum → Bool
  | some (.fin _) => true
  | _ => false

/-- All six numeric fields of a result are defined and finite. -/
def allFieldsFinite (r : MixDesignResult) : Bool :=
  isFiniteNum r.fckMean && isFiniteNum r.w_c && isFiniteNum r.water &&
    isFiniteNum r.cement && isFiniteNum r.fineAgg && isFiniteNum r.coarseAgg

/-- Project metadata of a stored run (src/server.js lines 121-127). -/
structure Project where
  projectName : String
  projectSite : String
  mixId : String
  castingDate : String

/-- A stored run (src/server.js lines 118-134). -/
structure Run where
  id : ℕ
  timestamp : String
  project : Project
  inputFck : JSNum
  inputCementGrade : Option String
  inputExposure : String
  result : MixDesignResult

/-- The process-wide mutable module state, `RUNS` and `NEXT_ID`
(src/server.js lines 52-54). -/
structure ServerState where
  RUNS : List Run
  NEXT_ID : ℕ

/-- `computeMixDesign` as seen from an arbitrary module state: the function
reads none of the mutable state, so the state parameter is unused. -/
def computeMixDesignAt (_s : ServerState) (fck : JSNum) (exposureKey : Option String) :
    Option MixDesignResult :=
  computeMixDesign fck exposureKey

/-! ### Overflow-aware arithmetic layer

Binary64 cannot represent magnitudes of `2^1024` or more; an operation whose
exact result reaches that magnitude overflows to ±infinity.  The `…Ov`
definitions mirror the exact ones, adding this overflow on every finite
operation (in-range results remain idealised as exact rationals). -/

/-- The binary64 overflow threshold, `2^1024`. -/
def OVF : ℚ := 2 ^ 1024

/-- Wrap the exact result of a finite binary64 operation: magnitudes of
`2^1024` or more overflow to the correspondingly signed infinity. -/
def jsFin (a : ℚ) : JSNum :=
  if a ≤ -OVF then .negInf else if OVF ≤ a then .posInf else .fin a

/-- `jsMul` with binary64 overflow on the finite case. -/
def jsMulOv (x y : JSNum) : JSNum :=
  match x, y with
  | .fin a, .fin b => jsFin (a * b)
  | _, _ => jsMul x y

/-- `jsAdd` with binary64 overflow on the finite case. -/
def jsAddOv (x y : JSNum) : JSNum :=
  match x, y with
  | .fin a, .fin b => jsFin (a + b)
  | _, _ => jsAdd x y

/-- `jsDiv` with binary64 overflow on the finite case. -/
def jsDivOv (x y : JSNum) : JSNum :=
  match x, y with
  | .fin a, .fin b => if b = 0 then jsDiv (.fin a) (.fin b) else jsFin (a / b)
  | _, _ => jsDiv x y

/-- The `round` helper over the overflow-aware arithmetic. -/
def roundOv (value : JSNum) (decimals : ℕ) : Option JSNum :=
  if jsIsNaN value then none
  else
    let factor : ℚ := 10 ^ decimals
    some (jsDivOv (mathRound (jsMulOv value (.fin factor))) (.fin factor))

/-- Line 62 over the overflow-aware arithmetic. -/
def fckMeanRawOv (x : JSNum) : JSNum :=
  jsAddOv (jsAddOv (jsMulOv (jsMulOv (.fin (-0.0035)) x) x) (jsMulOv (.fin 1.3074) x))
    (.fin 1.6883)

/-- Line 63 over the overflow-aware arithmetic. -/
def w_cRawOv (x : JSNum) : JSNum :=
  jsAddOv (jsAddOv (jsMulOv (jsMulOv (.fin 0.000009) x) x) (jsMulOv (.fin (-0.0044)) x))
    (.fin 0.5617)

/-- Line 64 over the overflow-aware arithmetic. -/
def waterRawOv (x : JSNum) : JSNum :=
  jsAddOv (jsAddOv (jsMulOv (jsMulOv (.fin (-0.0107)) x) x) (jsMulOv (.fin (-0.0941)) x))
    (.fin 195.56)

/-- Line 65 over the overflow-aware arithmetic. -/
def cementRawOv (x : JSNum) : JSNum :=
  jsAddOv (jsAddOv (jsMulOv (jsMulOv (.fin (-0.0308)) x) x) (jsMulOv (.fin 4.7223) x))
    (.fin 298.78)

/-- Line 66 over the overflow-aware arithmetic. -/
def fineAggRawOv (x : JSNum) : JSNum :=
  jsAddOv (jsAddOv (jsMulOv (jsMulOv (.fin (-0.1156)) x) x) (jsMulOv (.fin 10.473) x))
    (.fin 484.42)

/-- Line 67 over the overflow-aware arithmetic. -/
def coarseAggRawOv (x : JSNum) : JSNum :=
  jsAddOv (jsAddOv (jsMulOv (jsMulOv (.fin 0.0335) x) x) (jsMulOv (.fin (-5.2723)) x))
    (.fin 1234.4)

/-- `computeMixDesign` (src/server.js lines 56-87) over the overflow-aware
arithmetic layer. -/
def computeMixDesignOv (fck : JSNum) (exposureKey : Option String) : Option MixDesignResult :=
  let x := fck
  if !jsTruthy x || jsIsNaN x || jsLe x (.fin 0) then none
  else
    let limits := resolveExposure exposureKey
    let fckMean := fckMeanRawOv x
    let w_c := w_cRawOv x
    let water := waterRawOv x
    let cement := cementRawOv x
    let fineAgg := fineAggRawOv x
    let coarseAgg := coarseAggRawOv x
    let isWcOk := jsLeProp w_c limits.maxWcProp
    let isCementOk := jsGeProp cement limits.minCementProp
    let isGradeOk := jsGeProp x limits.minGradeFckProp
    some
      { fckMean := roundOv fckMean 2
        w_c := roundOv w_c 3
        water := roundOv water 2
        cement := roundOv cement 2
        fineAgg := roundOv fineAgg 2
        coarseAgg := roundOv coarseAgg 2
        checks :=
          { isWcOk := isWcOk
            isCementOk := isCementOk
            isGradeOk := isGradeOk
            limits := limits } }

/-! ## Structural lemmas about the embedding -/

theorem round_fin (a : ℚ) (d : ℕ) : round (.fin a) d = some (.fin (roundQ a d)) := by
  have h : ((10 : ℚ) ^ d) ≠ 0 := by positivity
  simp [round, jsIsNaN, mathRound, jsMul, jsDiv, roundQ, h]

theorem fckMeanRaw_fin (q : ℚ) : fckMeanRaw (.fin q) = .fin (fckMeanQ q) := by
  simp only [fckMeanRaw, fckMeanQ, jsMul, jsAdd]

theorem w_cRaw_fin (q : ℚ) : w_cRaw (.fin q) = .fin (w_cQ q) := by
  simp only [w_cRaw, w_cQ, jsMul, jsAdd, JSNum.fin.injEq]
  ring

theorem waterRaw_fin (q : ℚ) : waterRaw (.fin q) = .fin (waterQ q) := by
  simp only [waterRaw, waterQ, jsMul, jsAdd, JSNum.fin.injEq]
  ring

theorem cementRaw_fin (q : ℚ) : cementRaw (.fin q) = .fin (cementQ q) := by
  simp only [cementRaw, cementQ, jsMul, jsAdd]

theorem fineAggRaw_fin (q : ℚ) : fineAggRaw (.fin q) = .fin (fineAggQ q) := by
  simp only [fineAggRaw, fineAggQ, jsMul, jsAdd]

theorem coarseAggRaw_fin (q : ℚ) : coarseAggRaw (.fin q) = .fin (coarseAggQ q) := by
  simp only [coarseAggRaw, coarseAggQ, jsMul, jsAdd, JSNum.fin.injEq]
  ring

/-- On any strictly positive finite `fck`, `computeMixDesign` succeeds and its
result is fully described at the rational level. -/
theorem compute_fin_pos (q : ℚ) (hq : 0 < q) (k : Option String) :
    computeMixDesign (.fin q) k = some
      { fckMean := some (.fin (roundQ (fckMeanQ q) 2))
        w_c := some (.fin (roundQ (w_cQ q) 3))
        water := some (.fin (roundQ (waterQ q) 2))
        cement := some (.fin (roundQ (cementQ q) 2))
        fineAgg := some (.fin (roundQ (fineAggQ q) 2))
        coarseAgg := some (.fin (roundQ (coarseAggQ q) 2))
        checks :=
          { isWcOk := jsLeProp (.fin (w_cQ q)) (resolveExposure k).maxWcProp
            isCementOk := jsGeProp (.fin (cementQ q)) (resolveExposure k).minCementProp
            isGradeOk := jsGeProp (.fin q) (resolveExposure k).minGradeFckProp
            limits := resolveExposure k } } := by
  have hne : q ≠ 0 := ne_of_gt hq
  have hnle : ¬(q ≤ 0) := not_le.mpr hq
  simp [computeMixDesign, jsTruthy, jsIsNaN, jsLe, hne, hnle,
        fckMeanRaw_fin, w_cRaw_fin, waterRaw_fin, cementRaw_fin, fineAggRaw_fin,
        coarseAggRaw_fin, round_fin]

theorem resolveExposure_none : resolveExposure none = .cls mildExp := rfl

theorem resolveExposure_mild : resolveExposure (some "mild") = .cls mildExp := rfl

theorem resolveExposure_moderate : resolveExposure (some "moderate") = .cls moderateExp := rfl

theorem resolveExposure_severe : resolveExposure (some "severe") = .cls severeExp := rfl

theorem resolveExposure_verySevere :
    resolveExposure (some "verySevere") = .cls verySevereExp := rfl

theorem resolveExposure_extreme : resolveExposure (some "extreme") = .cls extremeExp := rfl

theorem resolveExposure_toString :
    resolveExposure (some "toString") = .protoMember "toString" := by decide

theorem compute_nan (k : Option String) : computeMixDesign .nan k = none := rfl

theorem compute_negInf (k : Option String) : computeMixDesign .negInf k = none := rfl

theorem compute_fin_nonpos (q : ℚ) (hq : q ≤ 0) (k : Option String) :
    computeMixDesign (.fin q) k = none := by
  simp [computeMixDesign, jsTruthy, jsIsNaN, jsLe, hq]

theorem jsLeProp_nan (b : Option ℚ) : jsLeProp .nan b = false := by
  cases b <;> rfl

theorem jsGeProp_nan (b : Option ℚ) : jsGeProp .nan b = false := by
  cases b <;> rfl

/-- On `fck = +∞` the guard passes; the even-degree terms give `∓∞`, so five
regressions produce `∞ − ∞ = NaN` (rounded to null) while `water` stays `−∞`;
NaN comparisons are false, and `isGradeOk` compares `∞` with the resolved
limits' grade property. -/
theorem compute_posInf (k : Option String) :
    computeMixDesign .posInf k = some
      { fckMean := none, w_c := none, water := some .negInf, cement := none,
        fineAgg := none, coarseAgg := none,
        checks := { isWcOk := false, isCementOk := false,
                    isGradeOk := jsGeProp .posInf (resolveExposure k).minGradeFckProp,
                    limits := resolveExposure k } } := by
  norm_num [computeMixDesign, jsTruthy, jsIsNaN, jsLe, fckMeanRaw, w_cRaw, waterRaw,
            cementRaw, fineAggRaw, coarseAggRaw, jsMul, jsAdd, round, mathRound, jsDiv,
            jsLeProp_nan, jsGeProp_nan]

/-! ### Lemmas about the overflow-aware layer -/

theorem jsFin_eq_fin (a : ℚ) (h1 : -OVF < a) (h2 : a < OVF) : jsFin a = .fin a := by
  rw [jsFin, if_neg (by linarith), if_neg (by linarith)]

/-- A quadratic with the code's coefficient magnitudes, evaluated in the
overflow-aware arithmetic, stays exact for `0 < q ≤ 10^150`. -/
theorem polyOv_fin (a b c q : ℚ) (ha : -11 ≤ a) (ha' : a ≤ 11) (hb : -11 ≤ b) (hb' : b ≤ 11)
    (hc : -2000 ≤ c) (hc' : c ≤ 2000) (hq : 0 < q) (hqB : q ≤ 10 ^ 150) :
    jsAddOv (jsAddOv (jsMulOv (jsMulOv (.fin a) (.fin q)) (.fin q)) (jsMulOv (.fin b) (.fin q)))
        (.fin c) = .fin (a * q * q + b * q + c) := by
  have hq' : (0 : ℚ) ≤ q := le_of_lt hq
  have haq1 : a * q ≤ 11 * 10 ^ 150 := by nlinarith
  have haq2 : -(11 * 10 ^ 150) ≤ a * q := by nlinarith
  have haqq1 : a * q * q ≤ 11 * 10 ^ 300 := by nlinarith
  have haqq2 : -(11 * 10 ^ 300) ≤ a * q * q := by nlinarith
  have hbq1 : b * q ≤ 11 * 10 ^ 150 := by nlinarith
  have hbq2 : -(11 * 10 ^ 150) ≤ b * q := by nlinarith
  have hO1 : (11 * 10 ^ 150 : ℚ) < OVF := by norm_num [OVF]
  have hO2 : (11 * 10 ^ 300 : ℚ) < OVF := by norm_num [OVF]
  have hO3 : (11 * 10 ^ 300 + 11 * 10 ^ 150 : ℚ) < OVF := by norm_num [OVF]
  have hO4 : (11 * 10 ^ 300 + 11 * 10 ^ 150 + 2000 : ℚ) < OVF := by norm_num [OVF]
  have e1 : jsMulOv (.fin a) (.fin q) = .fin (a * q) := by
    show jsFin (a * q) = .fin (a * q)
    exact jsFin_eq_fin _ (by linarith) (by linarith)
  rw [e1]
  have e2 : jsMulOv (.fin (a * q)) (.fin q) = .fin (a * q * q) := by
    show jsFin (a * q * q) = .fin (a * q * q)
    exact jsFin_eq_fin _ (by linarith) (by linarith)
  rw [e2]
  have e3 : jsMulOv (.fin b) (.fin q) = .fin (b * q) := by
    show jsFin (b * q) = .fin (b * q)
    exact jsFin_eq_fin _ (by linarith) (by linarith)
  rw [e3]
  have e4 : jsAddOv (.fin (a * q * q)) (.fin (b * q)) = .fin (a * q * q + b * q) := by
    show jsFin (a * q * q + b * q) = .fin (a * q * q + b * q)
    exact jsFin_eq_fin _ (by linarith) (by linarith)
  rw [e4]
  show jsFin (a * q * q + b * q + c) = .fin (a * q * q + b * q + c)
  exact jsFin_eq_fin _ (by linarith) (by linarith)

/-- Magnitude bound on the code's quadratics for `0 < q ≤ 10^150`. -/
theorem polyQ_bound (a b c q : ℚ) (ha : -11 ≤ a) (ha' : a ≤ 11) (hb : -11 ≤ b) (hb' : b ≤ 11)
    (hc : -2000 ≤ c) (hc' : c ≤ 2000) (hq : 0 < q) (hqB : q ≤ 10 ^ 150) :
    -(10 ^ 302) ≤ a * q * q + b * q + c ∧ a * q * q + b * q + c ≤ 10 ^ 302 := by
  have hq' : (0 : ℚ) ≤ q := le_of_lt hq
  have h1 : a * q ≤ 11 * 10 ^ 150 := by nlinarith
  have h2 : -(11 * 10 ^ 150) ≤ a * q := by nlinarith
  have h3 : a * q * q ≤ 11 * 10 ^ 300 := by nlinarith
  have h4 : -(11 * 10 ^ 300) ≤ a * q * q := by nlinarith
  have h5 : b * q ≤ 11 * 10 ^ 150 := by nlinarith
  have h6 : -(11 * 10 ^ 150) ≤ b * q := by nlinarith
  constructor <;> nlinarith

theorem fckMeanQ_bound (q : ℚ) (hq : 0 < q) (hqB : q ≤ 10 ^ 150) :
    -(10 ^ 302) ≤ fckMeanQ q ∧ fckMeanQ q ≤ 10 ^ 302 := by
  have h : fckMeanQ q = (-0.0035) * q * q + 1.3074 * q + 1.6883 := by rw [fckMeanQ]
  rw [h]
  exact polyQ_bound _ _ _ q (by norm_num) (by norm_num) (by norm_num) (by norm_num)
    (by norm_num) (by norm_num) hq hqB

theorem w_cQ_bound (q : ℚ) (hq : 0 < q) (hqB : q ≤ 10 ^ 150) :
    -(10 ^ 302) ≤ w_cQ q ∧ w_cQ q ≤ 10 ^ 302 := by
  have h : w_cQ q = 0.000009 * q * q + (-0.0044) * q + 0.5617 := by rw [w_cQ]; ring
  rw [h]
  exact polyQ_bound _ _ _ q (by norm_num) (by norm_num) (by norm_num) (by norm_num)
    (by norm_num) (by norm_num) hq hqB

theorem waterQ_bound (q : ℚ) (hq : 0 < q) (hqB : q ≤ 10 ^ 150) :
    -(10 ^ 302) ≤ waterQ q ∧ waterQ q ≤ 10 ^ 302 := by
  have h : waterQ q = (-0.0107) * q * q + (-0.0941) * q + 195.56 := by rw [waterQ]; ring
  rw [h]
  exact polyQ_bound _ _ _ q (by norm_num) (by norm_num) (by norm_num) (by norm_num)
    (by norm_num) (by norm_num) hq hqB

theorem cementQ_bound (q : ℚ) (hq : 0 < q) (hqB : q ≤ 10 ^ 150) :
    -(10 ^ 302) ≤ cementQ q ∧ cementQ q ≤ 10 ^ 302 := by
  have h : cementQ q = (-0.0308) * q * q + 4.7223 * q + 298.78 := by rw [cementQ]
  rw [h]
  exact polyQ_bound _ _ _ q (by norm_num) (by norm_num) (by norm_num) (by norm_num)
    (by norm_num) (by norm_num) hq hqB

theorem fineAggQ_bound (q : ℚ) (hq : 0 < q) (hqB : q ≤ 10 ^ 150) :
    -(10 ^ 302) ≤ fineAggQ q ∧ fineAggQ q ≤ 10 ^ 302 := by
  have h : fineAggQ q = (-0.1156) * q * q + 10.473 * q + 484.42 := by rw [fineAggQ]
  rw [h]
  exact polyQ_bound _ _ _ q (by norm_num) (by norm_num) (by norm_num) (by norm_num)
    (by norm_num) (by norm_num) hq hqB

theorem coarseAggQ_bound (q : ℚ) (hq : 0 < q) (hqB : q ≤ 10 ^ 150) :
    -(10 ^ 302) ≤ coarseAggQ q ∧ coarseAggQ q ≤ 10 ^ 302 := by
  have h : coarseAggQ q = 0.0335 * q * q + (-5.2723) * q + 1234.4 := by rw [coarseAggQ]; ring
  rw [h]
  exact polyQ_bound _ _ _ q (by norm_num) (by norm_num) (by norm_num) (by norm_num)
    (by norm_num) (by norm_num) hq hqB

theorem fckMeanRawOv_fin (q : ℚ) (hq : 0 < q) (hqB : q ≤ 10 ^ 150) :
    fckMeanRawOv (.fin q) = .fin (fckMeanQ q) := by
  simp only [fckMeanRawOv]
  rw [polyOv_fin (-0.0035) 1.3074 1.6883 q (by norm_num) (by norm_num) (by norm_num)
    (by norm_num) (by norm_num) (by norm_num) hq hqB]
  exact congrArg JSNum.fin (by rw [fckMeanQ])

theorem w_cRawOv_fin (q : ℚ) (hq : 0 < q) (hqB : q ≤ 10 ^ 150) :
    w_cRawOv (.fin q) = .fin (w_cQ q) := by
  simp only [w_cRawOv]
  rw [polyOv_fin 0.000009 (-0.0044) 0.5617 q (by norm_num) (by norm_num) (by norm_num)
    (by norm_num) (by norm_num) (by norm_num) hq hqB]
  exact congrArg JSNum.fin (by rw [w_cQ]; ring)

theorem waterRawOv_fin (q : ℚ) (hq : 0 < q) (hqB : q ≤ 10 ^ 150) :
    waterRawOv (.fin q) = .fin (waterQ q) := by
  simp only [waterRawOv]
  rw [polyOv_fin (-0.0107) (-0.0941) 195.56 q (by norm_num) (by norm_num) (by norm_num)
    (by norm_num) (by norm_num) (by norm_num) hq hqB]
  exact congrArg JSNum.fin (by rw [waterQ]; ring)

theorem cementRawOv_fin (q : ℚ) (hq : 0 < q) (hqB : q ≤ 10 ^ 150) :
    cementRawOv (.fin q) = .fin (cementQ q) := by
  simp only [cementRawOv]
  rw [polyOv_fin (-0.0308) 4.7223 298.78 q (by norm_num) (by norm_num) (by norm_num)
    (by norm_num) (by norm_num) (by norm_num) hq hqB]
  exact congrArg JSNum.fin (by rw [cementQ])

theorem fineAggRawOv_fin (q : ℚ) (hq : 0 < q) (hqB : q ≤ 10 ^ 150) :
    fineAggRawOv (.fin q) = .fin (fineAggQ q) := by
  simp only [fineAggRawOv]
  rw [polyOv_fin (-0.1156) 10.473 484.42 q (by norm_num) (by norm_num) (by norm_num)
    (by norm_num) (by norm_num) (by norm_num) hq hqB]
  exact congrArg JSNum.fin (by rw [fineAggQ])

theorem coarseAggRawOv_fin (q : ℚ) (hq : 0 < q) (hqB : q ≤ 10 ^ 150) :
    coarseAggRawOv (.fin q) = .fin (coarseAggQ q) := by
  simp only [coarseAggRawOv]
  rw [polyOv_fin 0.0335 (-5.2723) 1234.4 q (by norm_num) (by norm_num) (by norm_num)
    (by norm_num) (by norm_num) (by norm_num) hq hqB]
  exact congrArg JSNum.fin (by rw [coarseAggQ]; ring)

/-- `roundOv` agrees with the exact `round` on values far from the overflow
threshold (all six regressions at `0 < q ≤ 10^150` qualify). -/
theorem roundOv_fin (a : ℚ) (d : ℕ) (hd : d ≤ 3) (hl : -(10 ^ 302) ≤ a) (hu : a ≤ 10 ^ 302) :
    roundOv (.fin a) d = some (.fin (roundQ a d)) := by
  have hfac : (0 : ℚ) < 10 ^ d := by positivity
  have hone : (1 : ℚ) ≤ 10 ^ d := one_le_pow₀ (by norm_num)
  have hfle : (10 : ℚ) ^ d ≤ 10 ^ 3 := by
    exact pow_le_pow_right₀ (by norm_num) hd
  have hOVF : (10 ^ 305 + 1 : ℚ) < OVF := by norm_num [OVF]
  have hs_u : a * 10 ^ d ≤ 10 ^ 305 := by nlinarith
  have hs_l : -(10 ^ 305) ≤ a * 10 ^ d := by nlinarith
  have e1 : jsMulOv (.fin a) (.fin (10 ^ d)) = .fin (a * 10 ^ d) := by
    show jsFin (a * 10 ^ d) = .fin (a * 10 ^ d)
    exact jsFin_eq_fin _ (by linarith) (by linarith)
  have hz_u : ((⌊a * 10 ^ d + 1/2⌋ : ℤ) : ℚ) ≤ 10 ^ 305 + 1 := by
    have := Int.floor_le (a * 10 ^ d + 1/2)
    linarith
  have hz_l : -(10 ^ 305 + 1 : ℚ) ≤ ((⌊a * 10 ^ d + 1/2⌋ : ℤ) : ℚ) := by
    have := Int.sub_one_lt_floor (a * 10 ^ d + 1/2)
    linarith
  have e2 : jsDivOv (.fin ((⌊a * 10 ^ d + 1/2⌋ : ℤ) : ℚ)) (.fin (10 ^ d))
      = .fin (((⌊a * 10 ^ d + 1/2⌋ : ℤ) : ℚ) / 10 ^ d) := by
    show (if (10 : ℚ) ^ d = 0 then _ else jsFin _) = _
    rw [if_neg (ne_of_gt hfac)]
    apply jsFin_eq_fin
    · rw [lt_div_iff₀ hfac]
      nlinarith
    · rw [div_lt_iff₀ hfac]
      nlinarith
  have e0 : roundOv (.fin a) d
      = some (jsDivOv (mathRound (jsMulOv (.fin a) (.fin (10 ^ d)))) (.fin (10 ^ d))) := rfl
  rw [e0, e1]
  have e3 : mathRound (.fin (a * 10 ^ d)) = .fin ((⌊a * 10 ^ d + 1/2⌋ : ℤ) : ℚ) := rfl
  rw [e3, e2]
  rfl

/-- On `0 < q ≤ 10^150` the overflow-aware computation agrees with the exact
one: no intermediate reaches the binary64 overflow threshold. -/
theorem computeOv_fin_pos (q : ℚ) (hq : 0 < q) (hqB : q ≤ 10 ^ 150) (k : Option String) :
    computeMixDesignOv (.fin q) k = computeMixDesign (.fin q) k := by
  have hne : q ≠ 0 := ne_of_gt hq
  have hnle : ¬(q ≤ 0) := not_le.mpr hq
  have b1 := fckMeanQ_bound q hq hqB
  have b2 := w_cQ_bound q hq hqB
  have b3 := waterQ_bound q hq hqB
  have b4 := cementQ_bound q hq hqB
  have b5 := fineAggQ_bound q hq hqB
  have b6 := coarseAggQ_bound q hq hqB
  rw [compute_fin_pos q hq k]
  simp [computeMixDesignOv, jsTruthy, jsIsNaN, jsLe, hne, hnle,
        fckMeanRawOv_fin q hq hqB, w_cRawOv_fin q hq hqB, waterRawOv_fin q hq hqB,
        cementRawOv_fin q hq hqB, fineAggRawOv_fin q hq hqB, coarseAggRawOv_fin q hq hqB,
        roundOv_fin _ 2 (by norm_num) b1.1 b1.2, roundOv_fin _ 3 (by norm_num) b2.1 b2.2,
        roundOv_fin _ 2 (by norm_num) b3.1 b3.2, roundOv_fin _ 2 (by norm_num) b4.1 b4.2,
        roundOv_fin _ 2 (by norm_num) b5.1 b5.2, roundOv_fin _ 2 (by norm_num) b6.1 b6.2]

theorem computeOv_nan (k : Option String) : computeMixDesignOv .nan k = none := rfl

theorem computeOv_negInf (k : Option String) : computeMixDesignOv .negInf k = none := rfl

theorem computeOv_fin_nonpos (q : ℚ) (hq : q ≤ 0) (k : Option String) :
    computeMixDesignOv (.fin q) k = none := by
  simp [computeMixDesignOv, jsTruthy, jsIsNaN, jsLe, hq]

theorem computeOv_fin_pos_ne_none (q : ℚ) (hq : 0 < q) (k : Option String) :
    computeMixDesignOv (.fin q) k ≠ none := by
  have hne : q ≠ 0 := ne_of_gt hq
  have hnle : ¬(q ≤ 0) := not_le.mpr hq
  simp [computeMixDesignOv, jsTruthy, jsIsNaN, jsLe, hne, hnle]

theorem computeOv_posInf_ne_none (k : Option String) :
    computeMixDesignOv .posInf k ≠ none := by
  simp [computeMixDesignOv, jsTruthy, jsIsNaN, jsLe]

theorem jsFin_negOv (a : ℚ) (h : a ≤ -OVF) : jsFin a = .negInf := by
  rw [jsFin, if_pos h]

theorem jsFin_posOv (a : ℚ) (h : OVF ≤ a) : jsFin a = .posInf := by
  have h0 : (0 : ℚ) < OVF := by norm_num [OVF]
  rw [jsFin, if_neg (by linarith), if_pos h]

theorem roundOv_negInf (d : ℕ) : roundOv .negInf d = some .negInf := by
  have h : (0 : ℚ) < 10 ^ d := by positivity
  have e1 : jsMulOv .negInf (.fin (10 ^ d)) = .negInf := by
    show jsMul .negInf (.fin (10 ^ d)) = .negInf
    simp [jsMul, h]
  have e2 : jsDivOv .negInf (.fin (10 ^ d)) = .negInf := by
    show jsDiv .negInf (.fin (10 ^ d)) = .negInf
    simp [jsDiv, le_of_lt h]
  have e0 : roundOv .negInf d
      = some (jsDivOv (mathRound (jsMulOv .negInf (.fin (10 ^ d)))) (.fin (10 ^ d))) := rfl
  rw [e0, e1, show mathRound JSNum.negInf = JSNum.negInf from rfl, e2]

theorem roundOv_posInf (d : ℕ) : roundOv .posInf d = some .posInf := by
  have h : (0 : ℚ) < 10 ^ d := by positivity
  have e1 : jsMulOv .posInf (.fin (10 ^ d)) = .posInf := by
    show jsMul .posInf (.fin (10 ^ d)) = .posInf
    simp [jsMul, h]
  have e2 : jsDivOv .posInf (.fin (10 ^ d)) = .posInf := by
    show jsDiv .posInf (.fin (10 ^ d)) = .posInf
    simp [jsDiv, le_of_lt h]
  have e0 : roundOv .posInf d
      = some (jsDivOv (mathRound (jsMulOv .posInf (.fin (10 ^ d)))) (.fin (10 ^ d))) := rfl
  rw [e0, e1, show mathRound JSNum.posInf = JSNum.posInf from rfl, e2]

/-- At `fck = 10^160` the squared fckMean term overflows to −∞ and absorbs
the (in-range) linear and constant terms. -/
theorem fckMeanRawOv_1e160 : fckMeanRawOv (.fin (10 ^ 160)) = .negInf := by
  have m1 : jsMulOv (.fin (-0.0035)) (.fin (10 ^ 160)) = .fin (-0.0035 * 10 ^ 160) := by
    show jsFin _ = _
    exact jsFin_eq_fin _ (by norm_num [OVF]) (by norm_num [OVF])
  have m2 : jsMulOv (.fin (-0.0035 * 10 ^ 160)) (.fin (10 ^ 160)) = .negInf := by
    show jsFin _ = _
    exact jsFin_negOv _ (by norm_num [OVF])
  have m3 : jsMulOv (.fin 1.3074) (.fin (10 ^ 160)) = .fin (1.3074 * 10 ^ 160) := by
    show jsFin _ = _
    exact jsFin_eq_fin _ (by norm_num [OVF]) (by norm_num [OVF])
  simp only [fckMeanRawOv]
  rw [m1, m2, m3]
  rfl

theorem w_cRawOv_1e160 : w_cRawOv (.fin (10 ^ 160)) = .posInf := by
  have m1 : jsMulOv (.fin 0.000009) (.fin (10 ^ 160)) = .fin (0.000009 * 10 ^ 160) := by
    show jsFin _ = _
    exact jsFin_eq_fin _ (by norm_num [OVF]) (by norm_num [OVF])
  have m2 : jsMulOv (.fin (0.000009 * 10 ^ 160)) (.fin (10 ^ 160)) = .posInf := by
    show jsFin _ = _
    exact jsFin_posOv _ (by norm_num [OVF])
  have m3 : jsMulOv (.fin (-0.0044)) (.fin (10 ^ 160)) = .fin (-0.0044 * 10 ^ 160) := by
    show jsFin _ = _
    exact jsFin_eq_fin _ (by norm_num [OVF]) (by norm_num [OVF])
  simp only [w_cRawOv]
  rw [m1, m2, m3]
  rfl

theorem waterRawOv_1e160 : waterRawOv (.fin (10 ^ 160)) = .negInf := by
  have m1 : jsMulOv (.fin (-0.0107)) (.fin (10 ^ 160)) = .fin (-0.0107 * 10 ^ 160) := by
    show jsFin _ = _
    exact jsFin_eq_fin _ (by norm_num [OVF]) (by norm_num [OVF])
  have m2 : jsMulOv (.fin (-0.0107 * 10 ^ 160)) (.fin (10 ^ 160)) = .negInf := by
    show jsFin _ = _
    exact jsFin_negOv _ (by norm_num [OVF])
  have m3 : jsMulOv (.fin (-0.0941)) (.fin (10 ^ 160)) = .fin (-0.0941 * 10 ^ 160) := by
    show jsFin _ = _
    exact jsFin_eq_fin _ (by norm_num [OVF]) (by norm_num [OVF])
  simp only [waterRawOv]
  rw [m1, m2, m3]
  rfl

theorem cementRawOv_1e160 : cementRawOv (.fin (10 ^ 160)) = .negInf := by
  have m1 : jsMulOv (.fin (-0.0308)) (.fin (10 ^ 160)) = .fin (-0.0308 * 10 ^ 160) := by
    show jsFin _ = _
    exact jsFin_eq_fin _ (by norm_num [OVF]) (by norm_num [OVF])
  have m2 : jsMulOv (.fin (-0.0308 * 10 ^ 160)) (.fin (10 ^ 160)) = .negInf := by
    show jsFin _ = _
    exact jsFin_negOv _ (by norm_num [OVF])
  have m3 : jsMulOv (.fin 4.7223) (.fin (10 ^ 160)) = .fin (4.7223 * 10 ^ 160) := by
    show jsFin _ = _
    exact jsFin_eq_fin _ (by norm_num [OVF]) (by norm_num [OVF])
  simp only [cementRawOv]
  rw [m1, m2, m3]
  rfl

theorem fineAggRawOv_1e160 : fineAggRawOv (.fin (10 ^ 160)) = .negInf := by
  have m1 : jsMulOv (.fin (-0.1156)) (.fin (10 ^ 160)) = .fin (-0.1156 * 10 ^ 160) := by
    show jsFin _ = _
    exact jsFin_eq_fin _ (by norm_num [OVF]) (by norm_num [OVF])
  have m2 : jsMulOv (.fin (-0.1156 * 10 ^ 160)) (.fin (10 ^ 160)) = .negInf := by
    show jsFin _ = _
    exact jsFin_negOv _ (by norm_num [OVF])
  have m3 : jsMulOv (.fin 10.473) (.fin (10 ^ 160)) = .fin (10.473 * 10 ^ 160) := by
    show jsFin _ = _
    exact jsFin_eq_fin _ (by norm_num [OVF]) (by norm_num [OVF])
  simp only [fineAggRawOv]
  rw [m1, m2, m3]
  rfl

theorem coarseAggRawOv_1e160 : coarseAggRawOv (.fin (10 ^ 160)) = .posInf := by
  have m1 : jsMulOv (.fin 0.0335) (.fin (10 ^ 160)) = .fin (0.0335 * 10 ^ 160) := by
    show jsFin _ = _
    exact jsFin_eq_fin _ (by norm_num [OVF]) (by norm_num [OVF])
  have m2 : jsMulOv (.fin (0.0335 * 10 ^ 160)) (.fin (10 ^ 160)) = .posInf := by
    show jsFin _ = _
    exact jsFin_posOv _ (by norm_num [OVF])
  have m3 : jsMulOv (.fin (-5.2723)) (.fin (10 ^ 160)) = .fin (-5.2723 * 10 ^ 160) := by
    show jsFin _ = _
    exact jsFin_eq_fin _ (by norm_num [OVF]) (by norm_num [OVF])
  simp only [coarseAggRawOv]
  rw [m1, m2, m3]
  rfl

/-! ## Claims -/

/-- Claim C1, counterexample: at `fck = 20`, exposure `"moderate"`, the code
does not produce the outputs the claim lists (already the first one fails:
`targetMeanStrength` is 26.44, not 26.43; raw value 26.4363). -/
theorem claim_C1_counterexample :
    ¬((computeMixDesign (.fin 20) (some "moderate")).map MixDesignResult.fckMean =
          some (some (.fin 26.43)) ∧
      (computeMixDesign (.fin 20) (some "moderate")).map MixDesignResult.w_c =
          some (some (.fin 0.486)) ∧
      (computeMixDesign (.fin 20) (some "moderate")).map MixDesignResult.water =
          some (some (.fin 189.38)) ∧
      (computeMixDesign (.fin 20) (some "moderate")).map MixDesignResult.cement =
          some (some (.fin 379.16)) ∧
      (computeMixDesign (.fin 20) (some "moderate")).map MixDesignResult.fineAgg =
          some (some (.fin 662.21)) ∧
      (computeMixDesign (.fin 20) (some "moderate")).map MixDesignResult.coarseAgg =
          some (some (.fin 1140.46))) := by
  intro h
  obtain ⟨h1, -, -, -, -, -⟩ := h
  rw [compute_fin_pos 20 (by norm_num)] at h1
  norm_num [fckMeanQ, roundQ] at h1

/-- Claim C1 (amended): for `fck = 20`, exposure `"moderate"`, the computation
succeeds with rounded outputs targetMeanStrength 26.44, waterCementRatio 0.477,
waterContent 189.4, cementContent 380.91, fineAggregate 647.64,
coarseAggregate 1142.35, and compliance flags isWcOk = true, isCementOk = true,
isGradeOk = false. -/
theorem claim_C1 :
    computeMixDesign (.fin 20) (some "moderate") = some
      { fckMean := some (.fin 26.44), w_c := some (.fin 0.477), water := some (.fin 189.4),
        cement := some (.fin 380.91), fineAgg := some (.fin 647.64),
        coarseAgg := some (.fin 1142.35),
        checks := { isWcOk := true, isCementOk := true, isGradeOk := false,
                    limits := .cls moderateExp } } := by
  rw [compute_fin_pos 20 (by norm_num), resolveExposure_moderate]
  norm_num [moderateExp, LimitsVal.maxWcProp, LimitsVal.minCementProp,
            LimitsVal.minGradeFckProp, jsLeProp, jsGeProp, jsLe, jsGe, roundQ,
            fckMeanQ, w_cQ, waterQ, cementQ, fineAggQ, coarseAggQ]

/-- Claim C2, counterexample: `fck = 10^160` is a finite value in `(0, ∞)`,
but binary64 overflow makes every squared regression term ±∞, so all six
numeric fields of the result are ±Infinity — none is finite. -/
theorem claim_C2_counterexample :
    (0 : ℚ) < 10 ^ 160 ∧
    computeMixDesignOv (.fin (10 ^ 160)) none = some
      { fckMean := some .negInf, w_c := some .posInf, water := some .negInf,
        cement := some .negInf, fineAgg := some .negInf, coarseAgg := some .posInf,
        checks := { isWcOk := false, isCementOk := false, isGradeOk := true,
                    limits := .cls mildExp } } ∧
    (computeMixDesignOv (.fin (10 ^ 160)) none).map allFieldsFinite = some false := by
  have hrec : computeMixDesignOv (.fin (10 ^ 160)) none = some
      { fckMean := some .negInf, w_c := some .posInf, water := some .negInf,
        cement := some .negInf, fineAgg := some .negInf, coarseAgg := some .posInf,
        checks := { isWcOk := false, isCementOk := false, isGradeOk := true,
                    limits := .cls mildExp } } := by
    have h1 : ((10 : ℚ) ^ 160) ≠ 0 := by norm_num
    have h2 : ¬((10 : ℚ) ^ 160 ≤ 0) := by norm_num
    have h3 : mildExp.minGradeFck ≤ (10 : ℚ) ^ 160 := by norm_num [mildExp]
    simp [computeMixDesignOv, jsTruthy, jsIsNaN, jsLe, jsGe, h1, h2, h3,
          fckMeanRawOv_1e160, w_cRawOv_1e160, waterRawOv_1e160, cementRawOv_1e160,
          fineAggRawOv_1e160, coarseAggRawOv_1e160, roundOv_negInf, roundOv_posInf,
          jsLeProp, jsGeProp, resolveExposure, LimitsVal.maxWcProp,
          LimitsVal.minCementProp, LimitsVal.minGradeFckProp]
  refine ⟨by norm_num, hrec, ?_⟩
  rw [hrec]
  rfl

/-- Claim C2 (amended): the computation returns the null failure, with no
partial result, exactly when the coerced `fck` is NaN (missing / non-numeric)
or ≤ 0 (including −∞); for every finite fck in `(0, 10^150]` — within binary64
range, well below the overflow threshold near 1.3·10^154 — it returns a result
whose six numeric fields are all defined and finite. -/
theorem claim_C2 (k : Option String) (x : JSNum) (q : ℚ) (hq : 0 < q)
    (hqB : q ≤ 10 ^ 150) :
    (computeMixDesignOv x k = none ↔
      x = .nan ∨ x = .negInf ∨ ∃ a : ℚ, x = .fin a ∧ a ≤ 0) ∧
    (computeMixDesignOv (.fin q) k).map allFieldsFinite = some true := by
  constructor
  · cases x with
    | fin a =>
        rcases le_or_lt a 0 with h | h
        · rw [computeOv_fin_nonpos a h k]
          constructor
          · intro _
            exact Or.inr (Or.inr ⟨a, rfl, h⟩)
          · intro _
            rfl
        · constructor
          · intro hc
            exact absurd hc (computeOv_fin_pos_ne_none a h k)
          · rintro (hx | hx | ⟨b, hb, hb0⟩)
            · exact absurd hx (by simp)
            · exact absurd hx (by simp)
            · rw [JSNum.fin.injEq] at hb
              exact absurd (hb ▸ h) (not_lt.mpr hb0)
    | posInf =>
        constructor
        · intro hc
          exact absurd hc (computeOv_posInf_ne_none k)
        · rintro (hx | hx | ⟨b, hb, -⟩)
          · exact absurd hx (by simp)
          · exact absurd hx (by simp)
          · exact absurd hb (by simp)
    | negInf =>
        simp [computeOv_negInf k]
    | nan =>
        simp [computeOv_nan k]
  · rw [computeOv_fin_pos q hq hqB k, compute_fin_pos q hq k]
    rfl

/-- Claim C4, counterexample: `"toString"` is none of the five known keys, yet
`EXPOSURES["toString"]` finds the inherited, truthy
`Object.prototype.toString`, so resolution yields that member — not the mild
exposure class. -/
theorem claim_C4_counterexample :
    resolveExposure (some "toString") = LimitsVal.protoMember "toString" ∧
    LimitsVal.protoMember "toString" ≠ LimitsVal.cls mildExp ∧
    ¬("toString" = "mild" ∨ "toString" = "moderate" ∨ "toString" = "severe" ∨
      "toString" = "verySevere" ∨ "toString" = "extreme") := by
  refine ⟨resolveExposure_toString, by simp, by decide⟩

/-- Claim C4 (amended): every exposure identifier that is neither one of the
five known keys nor a property name inherited from `Object.prototype` resolves
to the mild class (likewise `undefined` and the empty string), and resolution
never fails; for inherited prototype names the computation also succeeds but
records the inherited member as its limits.  In particular
`compute(30, "unknownXYZ")` succeeds using the mild limits maxWc 0.55,
minCement 300, minGradeFck 20. -/
theorem claim_C4 (s : String) (h1 : s ≠ "mild") (h2 : s ≠ "moderate") (h3 : s ≠ "severe")
    (h4 : s ≠ "verySevere") (h5 : s ≠ "extreme") (h6 : s ∉ objectProtoKeys) :
    resolveExposure (some s) = .cls mildExp ∧
    resolveExposure none = .cls mildExp ∧
    resolveExposure (some "") = .cls mildExp ∧
    (computeMixDesign (.fin 30) (some "unknownXYZ")).map (fun r => r.checks.limits) =
        some (.cls mildExp) ∧
    computeMixDesign (.fin 30) (some "unknownXYZ") ≠ none ∧
    computeMixDesign (.fin 30) (some "toString") ≠ none ∧
    (computeMixDesign (.fin 30) (some "toString")).map (fun r => r.checks.limits) =
        some (.protoMember "toString") ∧
    mildExp.maxWc = 0.55 ∧ mildExp.minCement = 300 ∧ mildExp.minGradeFck = 20 := by
  refine ⟨?_, rfl, rfl, ?_, ?_, ?_, ?_, rfl, rfl, rfl⟩
  · simp [resolveExposure, EXPOSURES_get, h1, h2, h3, h4, h5, h6]
  · rw [compute_fin_pos 30 (by norm_num)]
    rfl
  · rw [compute_fin_pos 30 (by norm_num)]
    simp
  · rw [compute_fin_pos 30 (by norm_num)]
    simp
  · rw [compute_fin_pos 30 (by norm_num)]
    rfl

/-- Claim C5: each of the six numeric outputs, before rounding, is exactly the
quadratic `a·x² + b·x + c` in `x = fck` with the listed coefficients (these raw
evaluations are precisely what `computeMixDesign` rounds and emits). -/
theorem claim_C5 (q : ℚ) :
    fckMeanRaw (.fin q) = .fin (-0.0035 * q ^ 2 + 1.3074 * q + 1.6883) ∧
    w_cRaw (.fin q) = .fin (0.000009 * q ^ 2 + -0.0044 * q + 0.5617) ∧
    waterRaw (.fin q) = .fin (-0.0107 * q ^ 2 + -0.0941 * q + 195.56) ∧
    cementRaw (.fin q) = .fin (-0.0308 * q ^ 2 + 4.7223 * q + 298.78) ∧
    fineAggRaw (.fin q) = .fin (-0.1156 * q ^ 2 + 10.473 * q + 484.42) ∧
    coarseAggRaw (.fin q) = .fin (0.0335 * q ^ 2 + -5.2723 * q + 1234.4) := by
  refine ⟨?_, ?_, ?_, ?_, ?_, ?_⟩ <;>
    · simp only [fckMeanRaw_fin, w_cRaw_fin, waterRaw_fin, cementRaw_fin, fineAggRaw_fin,
                 coarseAggRaw_fin, fckMeanQ, w_cQ, waterQ, cementQ, fineAggQ, coarseAggQ,
                 JSNum.fin.injEq]
      ring

/-- Claim C6, counterexample: at `fck = 20` with key `"toString"`, the
resolved limits value is the inherited prototype member, not an exposure
class; `isWcOk` is `0.4773 <= undefined`, i.e. false, although the unrounded
w_c is below the mild limit 0.55 that the spec's resolution would supply —
so the flags do not equal comparisons against "the resolved class's" limits. -/
theorem claim_C6_counterexample :
    (computeMixDesign (.fin 20) (some "toString")).map (fun r => r.checks.isWcOk) =
        some false ∧
    w_cQ 20 ≤ mildExp.maxWc ∧
    resolveExposure (some "toString") = LimitsVal.protoMember "toString" := by
  refine ⟨?_, by norm_num [w_cQ, mildExp], resolveExposure_toString⟩
  rw [compute_fin_pos 20 (by norm_num), resolveExposure_toString]
  rfl

/-- Claim C6 (amended): whenever the exposure identifier resolves to one of
the exposure classes, the three flags equal `w_c ≤ maxWc`,
`cement ≥ minCement`, `fck ≥ minGradeFck` against that class; they are
informational only — the computation succeeds for every valid fck and every
identifier, including those resolving to an inherited prototype member
(where the undefined limit properties make the comparisons false). -/
theorem claim_C6 (q : ℚ) (hq : 0 < q) (k k' : Option String) (e : Exposure)
    (he : resolveExposure k = .cls e) :
    (computeMixDesign (.fin q) k).map (fun r => r.checks.isWcOk) =
        some (decide (w_cQ q ≤ e.maxWc)) ∧
    (computeMixDesign (.fin q) k).map (fun r => r.checks.isCementOk) =
        some (decide (cementQ q ≥ e.minCement)) ∧
    (computeMixDesign (.fin q) k).map (fun r => r.checks.isGradeOk) =
        some (decide (q ≥ e.minGradeFck)) ∧
    computeMixDesign (.fin q) k' ≠ none := by
  rw [compute_fin_pos q hq k, he]
  refine ⟨rfl, rfl, rfl, ?_⟩
  rw [compute_fin_pos q hq k']
  simp

/-- Claim C7: the compliance comparisons are evaluated on the *unrounded*
raw values against the resolved limits' properties — for any identifier —
and when the identifier resolves to a class they equal the comparisons of the
unrounded w_c and cement with that class's limits, while rounding touches only
the emitted fields.  At `fck = 14.4`, `"moderate"`, the two even come apart:
the rounded w_c (0.500) is within the 0.5 limit but the flag is false because
the unrounded value 0.50020624 exceeds it. -/
theorem claim_C7 (q : ℚ) (hq : 0 < q) (k k' : Option String) (e : Exposure)
    (he : resolveExposure k = .cls e) :
    (computeMixDesign (.fin q) k').map (fun r => r.checks.isWcOk) =
        some (jsLeProp (w_cRaw (.fin q)) (resolveExposure k').maxWcProp) ∧
    (computeMixDesign (.fin q) k').map (fun r => r.checks.isCementOk) =
        some (jsGeProp (cementRaw (.fin q)) (resolveExposure k').minCementProp) ∧
    (computeMixDesign (.fin q) k).map (fun r => r.checks.isWcOk) =
        some (decide (w_cQ q ≤ e.maxWc)) ∧
    (computeMixDesign (.fin q) k).map (fun r => r.checks.isCementOk) =
        some (decide (e.minCement ≤ cementQ q)) ∧
    (computeMixDesign (.fin q) k).map MixDesignResult.w_c =
        some (some (.fin (roundQ (w_cQ q) 3))) ∧
    (computeMixDesign (.fin q) k).map MixDesignResult.cement =
        some (some (.fin (roundQ (cementQ q) 2))) ∧
    (computeMixDesign (.fin 14.4) (some "moderate")).map (fun r => r.checks.isWcOk) =
        some false ∧
    roundQ (w_cQ 14.4) 3 ≤ moderateExp.maxWc ∧
    ¬(w_cQ 14.4 ≤ moderateExp.maxWc) := by
  rw [compute_fin_pos q hq k, he, compute_fin_pos q hq k',
      compute_fin_pos 14.4 (by norm_num), resolveExposure_moderate]
  refine ⟨?_, ?_, rfl, rfl, rfl, rfl, ?_, ?_, ?_⟩
  · rw [w_cRaw_fin]
    rfl
  · rw [cementRaw_fin]
    rfl
  · norm_num [jsLeProp, jsLe, LimitsVal.maxWcProp, moderateExp, w_cQ]
  · norm_num [roundQ, w_cQ, moderateExp]
  · norm_num [w_cQ, moderateExp]

/-- Claim C8: `computeMixDesign` is deterministic and stateless — from any two
module states (whatever `RUNS`/`NEXT_ID` hold after interleaved computations),
identical inputs give identical results. -/
theorem claim_C8 (s1 s2 : ServerState) (fck : JSNum) (k : Option String) :
    computeMixDesignAt s1 fck k = computeMixDesignAt s2 fck k := rfl

/-- Claim C9: for every fck accepted by validation, the unrounded
waterCementRatio quadratic is strictly positive (negative discriminant), hence
the emitted waterCementRatio is never negative. -/
theorem claim_C9 (q : ℚ) (hq : 0 < q) (k : Option String) :
    0 < w_cQ q ∧ 0 ≤ roundQ (w_cQ q) 3 ∧
    (computeMixDesign (.fin q) k).map MixDesignResult.w_c =
        some (some (.fin (roundQ (w_cQ q) 3))) := by
  have hw : 0 < w_cQ q := by
    simp only [w_cQ]
    nlinarith [sq_nonneg (q - 2200 / 9)]
  have hfl : (0 : ℤ) ≤ ⌊w_cQ q * 10 ^ 3 + 1 / 2⌋ := by
    apply Int.floor_nonneg.mpr
    nlinarith
  refine ⟨hw, ?_, ?_⟩
  · rw [roundQ]
    apply div_nonneg _ (by positivity)
    exact_mod_cast hfl
  · rw [compute_fin_pos q hq k]
    rfl

/-- Claim C10, counterexample: at `fck = +∞` the claim says all three
compliance flags are false, but `isGradeOk` is `∞ ≥ minGradeFck`, which is
true. -/
theorem claim_C10_counterexample :
    ¬((computeMixDesign .posInf none).map (fun r => r.checks.isGradeOk) = some false) := by
  rw [compute_posInf none]
  simp [resolveExposure, LimitsVal.minGradeFckProp, jsGeProp, jsGe, jsLe]

/-- Claim C10 (amended): for `fck = Infinity` the computation is not rejected:
targetMeanStrength, waterCementRatio, cementContent, fineAggregate and
coarseAggregate are null (the rounding helper maps their NaN values to null),
waterContent is −Infinity, `isWcOk` and `isCementOk` are false (NaN
comparisons) and `isGradeOk` is true (∞ ≥ minGradeFck). -/
theorem claim_C10 :
    computeMixDesign .posInf none = some
      { fckMean := none, w_c := none, water := some .negInf, cement := none,
        fineAgg := none, coarseAgg := none,
        checks := { isWcOk := false, isCementOk := false, isGradeOk := true,
                    limits := .cls mildExp } } := by
  rw [compute_posInf none]
  rfl

/-! ## Witnesses -/

theorem claim_C2_witness :
    (computeMixDesignOv .nan (some "severe") = none ↔
      JSNum.nan = .nan ∨ JSNum.nan = .negInf ∨ ∃ a : ℚ, JSNum.nan = .fin a ∧ a ≤ 0) ∧
    (computeMixDesignOv (.fin 20) (some "severe")).map allFieldsFinite = some true :=
  claim_C2 (some "severe") .nan 20 (by norm_num) (by norm_num)

theorem claim_C4_witness :
    resolveExposure (some "unknownXYZ") = .cls mildExp ∧
    resolveExposure none = .cls mildExp ∧
    resolveExposure (some "") = .cls mildExp ∧
    (computeMixDesign (.fin 30) (some "unknownXYZ")).map (fun r => r.checks.limits) =
        some (.cls mildExp) ∧
    computeMixDesign (.fin 30) (some "unknownXYZ") ≠ none ∧
    computeMixDesign (.fin 30) (some "toString") ≠ none ∧
    (computeMixDesign (.fin 30) (some "toString")).map (fun r => r.checks.limits) =
        some (.protoMember "toString") ∧
    mildExp.maxWc = 0.55 ∧ mildExp.minCement = 300 ∧ mildExp.minGradeFck = 20 :=
  claim_C4 "unknownXYZ" (by decide) (by decide) (by decide) (by decide) (by decide)
    (by decide)

theorem claim_C6_witness :
    (computeMixDesign (.fin 20) (some "moderate")).map (fun r => r.checks.isWcOk) =
        some (decide (w_cQ 20 ≤ moderateExp.maxWc)) ∧
    (computeMixDesign (.fin 20) (some "moderate")).map (fun r => r.checks.isCementOk) =
        some (decide (cementQ 20 ≥ moderateExp.minCement)) ∧
    (computeMixDesign (.fin 20) (some "moderate")).map (fun r => r.checks.isGradeOk) =
        some (decide ((20 : ℚ) ≥ moderateExp.minGradeFck)) ∧
    computeMixDesign (.fin 20) (some "toString") ≠ none :=
  claim_C6 20 (by norm_num) (some "moderate") (some "toString") moderateExp
    resolveExposure_moderate

theorem claim_C7_witness :
    (computeMixDesign (.fin 20) (some "toString")).map (fun r => r.checks.isWcOk) =
        some (jsLeProp (w_cRaw (.fin 20)) (resolveExposure (some "toString")).maxWcProp) ∧
    (computeMixDesign (.fin 20) (some "toString")).map (fun r => r.checks.isCementOk) =
        some (jsGeProp (cementRaw (.fin 20)) (resolveExposure (some "toString")).minCementProp) ∧
    (computeMixDesign (.fin 20) (some "severe")).map (fun r => r.checks.isWcOk) =
        some (decide (w_cQ 20 ≤ severeExp.maxWc)) ∧
    (computeMixDesign (.fin 20) (some "severe")).map (fun r => r.checks.isCementOk) =
        some (decide (severeExp.minCement ≤ cementQ 20)) ∧
    (computeMixDesign (.fin 20) (some "severe")).map MixDesignResult.w_c =
        some (some (.fin (roundQ (w_cQ 20) 3))) ∧
    (computeMixDesign (.fin 20) (some "severe")).map MixDesignResult.cement =
        some (some (.fin (roundQ (cementQ 20) 2))) ∧
    (computeMixDesign (.fin 14.4) (some "moderate")).map (fun r => r.checks.isWcOk) =
        some false ∧
    roundQ (w_cQ 14.4) 3 ≤ moderateExp.maxWc ∧
    ¬(w_cQ 14.4 ≤ moderateExp.maxWc) :=
  claim_C7 20 (by norm_num) (some "severe") (some "toString") severeExp
    resolveExposure_severe

theorem claim_C9_witness :
    0 < w_cQ 20 ∧ 0 ≤ roundQ (w_cQ 20) 3 ∧
    (computeMixDesign (.fin 20) none).map MixDesignResult.w_c =
        some (some (.fin (roundQ (w_cQ 20) 3))) :=
  claim_C9 20 (by norm_num) none

end StrengthChecker
